import Mathlib

/-!
Shallow embedding of the tg_ai_bot notification relay
(src/ask_module.py and src/request_module.py) and proofs of the
specification claims about it.

Conventions of the embedding:
  * Python strings are Lean `String`; dictionary keys that may be absent
    become `Option String` fields (`none` = key missing / value `None`).
  * Python truthiness tests on the owner identifier (`if not self.owner_id`)
    become `pyTruthy`, which is false exactly for `None` and `""`.
  * The JSON log file is modelled by its `notifications` array, an
    `Option (List Notification)` where `none` means the file is absent.
  * Wall-clock reads (`datetime.now()`) become an explicit `now : String`
    parameter; I/O and transport outcomes (exceptions raised by
    `write_text` or `bot.send_message`) become explicit outcome parameters,
    since the Python code catches every exception and turns it into data.
  * Handlers return a result structure carrying the new FSM context, the
    (unchanged or updated) log contents, the list of reply texts shown to
    the calling user, and the message transmitted to the owner, if any.
-/

namespace TgAiBot

/-- Python truthiness of an optional string: `None` and `""` are falsy. -/
def pyTruthy (o : Option String) : Bool :=
  match o with
  | none => false
  | some s => s ≠ ""

/-- Python `x or default` on an optional string: falsy values are replaced. -/
def pyOrElse (o : Option String) (d : String) : String :=
  match o with
  | none => d
  | some s => if s = "" then d else s

/-- Characters removed by Python `str.strip()` (the ASCII whitespace set). -/
def isPySpace (c : Char) : Bool :=
  c = ' ' || c = '\t' || c = '\n' || c = '\r' || c = '\x0b' || c = '\x0c'

/-- Drop leading `isPySpace` characters. -/
def dropSpaces : List Char → List Char
  | [] => []
  | c :: rest => if isPySpace c then dropSpaces rest else c :: rest

/-- Python `str.strip()` on the character list: trim both ends. -/
def stripL (s : List Char) : List Char :=
  ((dropSpaces ((dropSpaces s).reverse)).reverse)

/-- Python `str.strip()`. -/
def pyStrip (s : String) : String := ⟨stripL s.data⟩

/-- Does `t` occur at the start of `s`? -/
def startsWithL : List Char → List Char → Bool
  | [], _ => true
  | _ :: _, [] => false
  | a :: as, b :: bs => (a = b) && startsWithL as bs

/-- Python `s.replace(old, new, 1)`: replace the first occurrence of `old`. -/
def replaceOnceL (s old new : List Char) : List Char :=
  match s with
  | [] => if old = [] then new else []
  | c :: rest =>
    if startsWithL old s then new ++ s.drop old.length
    else c :: replaceOnceL rest old new

/-- Python `s.replace(old, new, 1)` on strings. -/
def pyReplaceOnce (s old new : String) : String :=
  ⟨replaceOnceL s.data old.data new.data⟩

/-- Substring occurrence as a Bool: some split of `s` has `t` in the middle. -/
def containsSubB (t s : List Char) : Bool :=
  (List.range (s.length + 1)).any (fun i => startsWithL t (s.drop i))

/-- Substring occurrence as a Prop, at the level of character lists. -/
def ContainsD (t s : List Char) : Prop :=
  ∃ a b, s = a ++ t ++ b

/-- A string contains another as a substring (stated on the `data` lists). -/
def StrContains (s t : String) : Prop := ContainsD t.data s.data

theorem startsWithL_iff (t s : List Char) :
    startsWithL t s = true ↔ ∃ r, s = t ++ r := by
  induction t generalizing s with
  | nil => simp [startsWithL]
  | cons a as ih =>
    cases s with
    | nil => simp [startsWithL]
    | cons b bs =>
      simp only [startsWithL, Bool.and_eq_true, decide_eq_true_eq, ih,
        List.cons_append, List.cons.injEq]
      constructor
      · rintro ⟨rfl, r, rfl⟩; exact ⟨r, rfl, rfl⟩
      · rintro ⟨r, rfl, rfl⟩; exact ⟨rfl, r, rfl⟩

theorem containsSubB_iff (t s : List Char) :
    containsSubB t s = true ↔ ContainsD t s := by
  simp only [containsSubB, List.any_eq_true, List.mem_range, startsWithL_iff]
  constructor
  · rintro ⟨i, -, r, hr⟩
    refine ⟨s.take i, r, ?_⟩
    conv_lhs => rw [← List.take_append_drop i s, hr]
    rw [List.append_assoc]
  · rintro ⟨a, b, rfl⟩
    refine ⟨a.length, by simp [Nat.lt_succ_iff, List.length_append], b, ?_⟩
    rw [List.append_assoc, List.drop_left]

/-!
Data model of src/request_module.py (NotificationManager).
-/

/-- The `user_info` dictionary handed to the NotificationManager
(`id`, `username`, `first_name`, `last_name`); a `none` field models a
missing key, matching the `dict.get(key, default)` accesses in the source. -/
structure UserInfo where
  id : Option String
  username : Option String
  first_name : Option String
  last_name : Option String
deriving DecidableEq, Repr

/-- One record of the `notifications` array in `notifications_log.json`,
as built by `NotificationManager._log_notification`; `reviewed_at` is absent
(`none`) until `mark_notification_as_reviewed` stamps it. -/
structure Notification where
  id : Nat
  timestamp : String
  type : String
  user_info : UserInfo
  message : String
  status : String
  reviewed_at : Option String := none
deriving DecidableEq, Repr

/-- The record `_log_notification` builds before appending:
`id` is the current array length plus one, `status` starts as `"pending"`. -/
def newNotification (msg : String) (ui : UserInfo) (ntype : String)
    (now : String) (count : Nat) : Notification :=
  { id := count + 1
    timestamp := now
    type := ntype
    user_info := ui
    message := msg
    status := "pending"
    reviewed_at := none }

/-- `NotificationManager._log_notification`, the pure append-and-trim step:
read the array (empty if the file is absent), append a new record whose id is
`count + 1`, keep only the last 100 records (`data["notifications"][-100:]`),
and return the new array together with the new record's id. -/
def logNotification (msg : String) (ui : UserInfo) (ntype : String)
    (now : String) (file : Option (List Notification)) :
    List Notification × Nat :=
  let data := file.getD []
  let note := newNotification msg ui ntype now data.length
  let appended := data ++ [note]
  let trimmed :=
    if appended.length > 100 then appended.drop (appended.length - 100)
    else appended
  (trimmed, note.id)

/-- Outcome of the `_log_notification` call as seen by `send_to_owner`:
the returned dictionary is `{"success": True, "notification_id": id}` or
`{"success": False, "error": str(e)}`. -/
inductive LogResult where
  | success (notification_id : Nat)
  | failure (error : String)
deriving DecidableEq, Repr

/-- The composite dictionary returned by `send_to_owner`. -/
structure SendResults where
  telegram_sent : Bool
  email_sent : Bool
  logged : Bool
  errors : List String
deriving DecidableEq, Repr

/-- `NotificationManager.send_to_owner`. Parameters beyond the Python
arguments model the environment: `file` is the current log contents,
`ioError` is the exception message if the JSON read/write raises (none =
I/O succeeds), and `tgError` is the exception message if
`bot_instance.send_message` raises when a transmission is attempted.
Returns the composite results dictionary, the log file contents afterwards,
and whether a Telegram transmission was attempted. The log step always runs
first; the transmission runs only when both `self.owner_telegram_id` and
`bot_instance` are truthy, and a failed log step does not suppress it. -/
def sendToOwner (owner_telegram_id : Option String) (bot_instance : Bool)
    (msg : String) (ui : UserInfo) (ntype : String) (now : String)
    (file : Option (List Notification))
    (ioError : Option String) (tgError : Option String) :
    SendResults × Option (List Notification) × Bool :=
  let logStep : LogResult × Option (List Notification) :=
    match ioError with
    | some e => (.failure e, file)
    | none =>
      let r := logNotification msg ui ntype now file
      (.success r.2, some r.1)
  let results0 : SendResults :=
    { telegram_sent := false, email_sent := false, logged := false, errors := [] }
  let results1 : SendResults :=
    match logStep.1 with
    | .success _ => { results0 with logged := true }
    | .failure e =>
      { results0 with logged := false
                      errors := results0.errors ++ ["Log error: " ++ e] }
  if pyTruthy owner_telegram_id && bot_instance then
    match tgError with
    | none => ({ results1 with telegram_sent := true }, logStep.2, true)
    | some e =>
      ({ results1 with telegram_sent := false
                       errors := results1.errors ++ ["Telegram error: " ++ e] },
       logStep.2, true)
  else
    (results1, logStep.2, false)

/-- The header table of `_format_notification_message`
(`notification_types.get(notification_type, default)`). -/
def notificationHeader (ntype : String) : String :=
  if ntype = "user_question" then "❓ ВОПРОС ОТ ПОЛЬЗОВАТЕЛЯ"
  else if ntype = "feedback" then "📝 ОБРАТНАЯ СВЯЗЬ"
  else if ntype = "urgent" then "🚨 СРОЧНОЕ УВЕДОМЛЕНИЕ"
  else "📨 УВЕДОМЛЕНИЕ"

/-- `NotificationManager._format_notification_message`: missing `user_info`
keys render as the literal `"N/A"` default of each `dict.get`; the local
timestamp (`datetime.now().strftime("%Y-%m-%d %H:%M:%S")`) is the explicit
`ts` parameter. -/
def formatNotificationMessage (message : String) (ui : UserInfo)
    (ntype : String) (ts : String) : String :=
  "<b>" ++ notificationHeader ntype ++ "</b>\n\n👤 <b>Пользователь:</b>\nID: " ++
  ui.id.getD "N/A" ++ "\nUsername: @" ++ ui.username.getD "N/A" ++
  "\nИмя: " ++ ui.first_name.getD "N/A" ++
  "\nФамилия: " ++ ui.last_name.getD "N/A" ++
  "\n\n💬 <b>Сообщение:</b>\n" ++ message ++
  "\n\n⏰ <b>Время:</b> " ++ ts ++ "\n"

/-- The loop body of `mark_notification_as_reviewed`: walk the array, update
the first record whose id matches (status forced to `"reviewed"`,
`reviewed_at` stamped) and stop; `none` when no record matches. -/
def markFirst (nid : Nat) (now : String) :
    List Notification → Option (List Notification)
  | [] => none
  | n :: rest =>
    if n.id = nid then
      some ({ n with status := "reviewed", reviewed_at := some now } :: rest)
    else
      (markFirst nid now rest).map (n :: ·)

/-- `NotificationManager.mark_notification_as_reviewed`: if the file exists
and a record matches, rewrite the file with the first match updated and
return `True`; otherwise leave the file untouched and return `False`. -/
def markNotificationAsReviewed (nid : Nat) (now : String)
    (file : Option (List Notification)) :
    Option (List Notification) × Bool :=
  match file with
  | none => (none, false)
  | some data =>
    match markFirst nid now data with
    | some updated => (some updated, true)
    | none => (some data, false)

/-- `NotificationManager.get_pending_notifications`. -/
def getPendingNotifications (file : Option (List Notification)) :
    List Notification :=
  match file with
  | none => []
  | some data => data.filter (fun n => n.status = "pending")

/-- A user-info mapping with every key missing, for driving the log. -/
def insertUI : UserInfo := ⟨none, none, none, none⟩

/-- The message text used for the k-th sequential insertion, so that the
records of a run of insertions stay distinguishable. -/
def seqMessage (k : Nat) : String := toString k

/-- The log contents after `n` sequential `_log_notification` calls starting
from an empty log, the k-th call logging `seqMessage k`. -/
def insertSeq : Nat → List Notification
  | 0 => []
  | n + 1 => (logNotification (seqMessage (n + 1)) insertUI "user_question" "t"
      (some (insertSeq n))).1

/-!
Data model of src/ask_module.py (AskModule, AskStates).
-/

/-- The aiogram FSM state of the ask dialog: `idle` models state `None`
(no active dialog), the other two are `AskStates.waiting_for_question` and
`AskStates.confirming_question`. -/
inductive AskState where
  | idle
  | waiting_for_question
  | confirming_question
deriving DecidableEq, Repr

/-- The aiogram `FSMContext` as the ask dialog uses it: the current state
plus the stored `question` entry of the state data (set by
`state.update_data(question=...)`, absent after `state.clear()`). -/
structure FsmContext where
  state : AskState
  question : Option String
deriving DecidableEq, Repr

/-- `state.clear()`: back to state `None` with empty data. -/
def clearedContext : FsmContext := { state := .idle, question := none }

/-- The Telegram user attached to a message or callback
(`message.from_user` / `callback.from_user`): numeric id plus optional
profile fields, where `none` models `None`. -/
structure TgUser where
  id : Nat
  first_name : Option String
  last_name : Option String
  username : Option String
deriving DecidableEq, Repr

/-- The prefix keyword of the quick-ask path (`F.text.startswith("вопрос:")`). -/
def quickAskMarker : String := "вопрос:"

/-- Reply of `cmd_ask_owner` when no owner id is configured. -/
def unavailableFullMsg : String :=
  "❌ Функция связи с владельцем временно недоступна.\nВладелец не указал свои контактные данные."

/-- Reply of `handle_quick_ask` when no owner id is configured. -/
def unavailableShortMsg : String :=
  "❌ Функция связи с владельцем временно недоступна."

/-- Prompt of `cmd_ask_owner` on entering the dialog. -/
def askPromptMsg : String :=
  "📝 <b>Вопрос владельцу</b>\n\nНапишите ваш вопрос или сообщение, которое я передам Дмитрию.\n\nДля отмены используйте команду /cancel"

/-- Reply of `process_ask_question` when the text is `/cancel`. -/
def askCancelledMsg : String := "❌ Отправка вопроса отменена."

/-- Reply of `handle_ask_confirmation` when the stored owner id is falsy. -/
def ownerMissingErrorMsg : String := "❌ Ошибка: ID владельца не указан в настройках."

/-- Success reply of `handle_ask_confirmation`. -/
def confirmSentMsg : String :=
  "✅ <b>Ваш вопрос отправлен Дмитрию!</b>\n\nЯ уведомил его о вашем сообщении. Обычно он отвечает в течение 24 часов.\n\nСпасибо за обращение! ✨"

/-- Failure reply of `handle_ask_confirmation` when the send raises. -/
def confirmErrorMsg : String :=
  "❌ <b>Произошла ошибка при отправке</b>\n\nПожалуйста, попробуйте позже или свяжитесь другим способом."

/-- Usage hint of `handle_quick_ask` when nothing follows the keyword. -/
def quickUsageMsg : String :=
  "Пожалуйста, напишите вопрос после 'вопрос:'\nПример: <i>вопрос: Как с вами можно сотрудничать?</i>"

/-- Success reply of `handle_quick_ask`. -/
def quickSentMsg : String :=
  "✅ <b>Ваш вопрос отправлен Дмитрию!</b>\n\nЯ уведомил его о вашем сообщении. Он ответит вам при первой возможности."

/-- Failure reply of `handle_quick_ask` when the send raises. -/
def quickErrorMsg : String :=
  "❌ Не удалось отправить вопрос. Пожалуйста, попробуйте позже."

/-- Reply of `cmd_cancel` when no FSM state is active. -/
def nothingToCancelMsg : String := "Нет активных действий для отмены."

/-- Reply of `cmd_cancel` when it clears an active state. -/
def actionCancelledMsg : String := "❌ Действие отменено."

/-- What one handler invocation did: the FSM context afterwards, the log
file contents afterwards (the ask handlers never touch the log file, so
they pass it through), the reply texts shown to the user, and the text
transmitted to the owner when a send succeeded. -/
structure HandlerResult where
  ctx : FsmContext
  log : List Notification
  replies : List String
  ownerMessage : Option String
deriving DecidableEq, Repr

/-- `AskModule.cmd_ask_owner`: refuse with the fixed unavailable message
when the owner id is falsy, otherwise prompt and enter
`waiting_for_question` (aiogram `set_state` keeps the stored data). -/
def cmdAskOwner (owner_id : Option String) (ctx : FsmContext)
    (log : List Notification) : HandlerResult :=
  if pyTruthy owner_id = false then
    { ctx := ctx, log := log, replies := [unavailableFullMsg], ownerMessage := none }
  else
    { ctx := { state := .waiting_for_question, question := ctx.question }
      log := log
      replies := [askPromptMsg]
      ownerMessage := none }

/-- The confirmation prompt `process_ask_question` shows: the stored
question is truncated to 300 characters for display. -/
def confirmPrompt (q : String) : String :=
  "<b>Подтвердите отправку:</b>\n\n<i>" ++ (⟨q.data.take 300⟩ : String) ++
  "...</i>\n\nОтправить этот вопрос Дмитрию?"

/-- ASCII-faithful model of Python `str.lower()`. -/
def pyLower (s : String) : String := ⟨s.data.map Char.toLower⟩

/-- `AskModule.process_ask_question` (state `waiting_for_question`): strip
the text; `/cancel` clears the dialog, anything else is stored as the
pending question and the dialog moves to `confirming_question`. -/
def processAskQuestion (text : String) (ctx : FsmContext)
    (log : List Notification) : HandlerResult :=
  let user_question := pyStrip text
  if pyLower user_question = "/cancel" then
    { ctx := clearedContext, log := log
      replies := [askCancelledMsg], ownerMessage := none }
  else
    { ctx := { state := .confirming_question, question := some user_question }
      log := log
      replies := [confirmPrompt user_question]
      ownerMessage := none }

/-- The owner-facing message `handle_ask_confirmation` builds inline. -/
def formatAskOwnerMessage (user : TgUser) (question ts : String) : String :=
  "❓ <b>ВОПРОС ОТ ПОЛЬЗОВАТЕЛЯ</b>\n\n👤 <b>Пользователь:</b>\nID: " ++
  toString user.id ++
  "\nИмя: " ++ pyOrElse user.first_name "Не указано" ++
  "\nФамилия: " ++ pyOrElse user.last_name "Не указано" ++
  "\nUsername: @" ++ pyOrElse user.username "Не указан" ++
  "\n\n💬 <b>Сообщение:</b>\n" ++ question ++
  "\n\n⏰ <b>Время:</b> " ++ ts

/-- `AskModule.handle_ask_confirmation` (state `confirming_question`).
`sendFails` models `bot.send_message` (or `int(owner_id)`) raising.
Whatever the callback data and the outcome, the handler never touches the
notification log file and always ends with `state.clear()`. -/
def handleAskConfirmation (owner_id : Option String) (cbData : String)
    (user : TgUser) (now : String) (ctx : FsmContext) (sendFails : Bool)
    (log : List Notification) : HandlerResult :=
  let question := ctx.question.getD ""
  if cbData = "ask_confirm" then
    if pyTruthy owner_id = false then
      { ctx := clearedContext, log := log
        replies := [ownerMissingErrorMsg], ownerMessage := none }
    else if sendFails then
      { ctx := clearedContext, log := log
        replies := [confirmErrorMsg], ownerMessage := none }
    else
      { ctx := clearedContext, log := log
        replies := [confirmSentMsg]
        ownerMessage := some (formatAskOwnerMessage user question now) }
  else if cbData = "ask_cancel" then
    { ctx := clearedContext, log := log
      replies := [askCancelledMsg], ownerMessage := none }
  else
    { ctx := clearedContext, log := log, replies := [], ownerMessage := none }

/-- The owner-facing message `handle_quick_ask` builds inline. -/
def formatQuickOwnerMessage (user : TgUser) (question ts : String) : String :=
  "❓ <b>ВОПРОС ОТ ПОЛЬЗОВАТЕЛЯ (быстрая отправка)</b>\n\n👤 <b>Пользователь:</b>\nID: " ++
  toString user.id ++
  "\nИмя: " ++ pyOrElse user.first_name "Не указано" ++
  "\nФамилия: " ++ pyOrElse user.last_name "Не указано" ++
  "\nUsername: @" ++ pyOrElse user.username "Не указан" ++
  "\n\n💬 <b>Сообщение:</b>\n" ++ question ++
  "\n\n⏰ <b>Время:</b> " ++ ts

/-- `AskModule.handle_quick_ask`: strip the text after removing the first
occurrence of the keyword; empty content yields the usage hint, a falsy
owner id yields the short unavailable message, otherwise the question is
sent to the owner immediately. The handler takes no `state` argument in the
source and never touches the log file, so both pass through unchanged. -/
def handleQuickAsk (owner_id : Option String) (text : String) (user : TgUser)
    (now : String) (ctx : FsmContext) (sendFails : Bool)
    (log : List Notification) : HandlerResult :=
  let question_text := pyStrip (pyReplaceOnce text quickAskMarker "")
  if question_text = "" then
    { ctx := ctx, log := log, replies := [quickUsageMsg], ownerMessage := none }
  else if pyTruthy owner_id = false then
    { ctx := ctx, log := log, replies := [unavailableShortMsg], ownerMessage := none }
  else if sendFails then
    { ctx := ctx, log := log, replies := [quickErrorMsg], ownerMessage := none }
  else
    { ctx := ctx, log := log
      replies := [quickSentMsg]
      ownerMessage := some (formatQuickOwnerMessage user question_text now) }

/-- `AskModule.cmd_cancel`: reads only the FSM state (it never consults the
owner id): with no active state it reports nothing to cancel, otherwise it
clears the state. -/
def cmdCancel (ctx : FsmContext) (log : List Notification) : HandlerResult :=
  if ctx.state = .idle then
    { ctx := ctx, log := log, replies := [nothingToCancelMsg], ownerMessage := none }
  else
    { ctx := clearedContext, log := log
      replies := [actionCancelledMsg], ownerMessage := none }

/-!
Helper lemmas about the embedded operations.
-/

theorem logNotification_eq (msg : String) (ui : UserInfo) (ntype now : String)
    (file : Option (List Notification)) :
    logNotification msg ui ntype now file =
      (let data := file.getD []
       let note := newNotification msg ui ntype now data.length
       (if data.length + 1 > 100 then
          (data ++ [note]).drop (data.length + 1 - 100)
        else data ++ [note],
        data.length + 1)) := by
  simp only [logNotification, List.length_append, List.length_cons,
    List.length_nil, newNotification]

theorem logNotification_length_le (msg : String) (ui : UserInfo)
    (ntype now : String) (file : Option (List Notification)) :
    (logNotification msg ui ntype now file).1.length ≤ 100 := by
  rw [logNotification_eq]
  set data := file.getD []
  by_cases h : data.length + 1 > 100
  · simp only [h, if_true, List.length_drop, List.length_append,
      List.length_cons, List.length_nil]
    omega
  · simp only [h, if_false, List.length_append, List.length_cons,
      List.length_nil]
    omega

theorem logNotification_small (msg : String) (ui : UserInfo)
    (ntype now : String) (data : List Notification)
    (h : data.length < 100) :
    (logNotification msg ui ntype now (some data)).1 =
      data ++ [newNotification msg ui ntype now data.length] := by
  rw [logNotification_eq]
  simp only [Option.getD_some]
  rw [if_neg (by omega)]

theorem markFirst_not_found (nid : Nat) (now : String)
    (data : List Notification) (h : ∀ n ∈ data, n.id ≠ nid) :
    markFirst nid now data = none := by
  induction data with
  | nil => rfl
  | cons n rest ih =>
    simp only [markFirst]
    rw [if_neg (h n (List.mem_cons_self n rest))]
    rw [ih (fun m hm => h m (List.mem_cons_of_mem n hm))]
    rfl

theorem markFirst_found (nid : Nat) (now : String)
    (pre : List Notification) (n : Notification) (post : List Notification)
    (hpre : ∀ m ∈ pre, m.id ≠ nid) (hn : n.id = nid) :
    markFirst nid now (pre ++ n :: post) =
      some (pre ++ { n with status := "reviewed", reviewed_at := some now } :: post) := by
  induction pre with
  | nil => simp [markFirst, hn]
  | cons m rest ih =>
    simp only [List.cons_append, markFirst]
    rw [if_neg (hpre m (List.mem_cons_self m rest))]
    rw [List.append_eq, ih (fun x hx => hpre x (List.mem_cons_of_mem m hx))]
    rfl

theorem startsWithL_self_append (l r : List Char) :
    startsWithL l (l ++ r) = true := by
  induction l with
  | nil => rfl
  | cons a as ih => simp [startsWithL, ih]

theorem dropSpaces_all (l : List Char) (h : ∀ c ∈ l, isPySpace c = true) :
    dropSpaces l = [] := by
  induction l with
  | nil => rfl
  | cons c rest ih =>
    simp only [dropSpaces]
    rw [h c (List.mem_cons_self c rest), if_pos rfl]
    exact ih (fun x hx => h x (List.mem_cons_of_mem c hx))

theorem stripL_all (l : List Char) (h : ∀ c ∈ l, isPySpace c = true) :
    stripL l = [] := by
  simp [stripL, dropSpaces_all l h, dropSpaces]

theorem replaceOnceL_self (old tail : List Char) (h : old ≠ []) :
    replaceOnceL (old ++ tail) old [] = tail := by
  match old, h with
  | a :: as, _ =>
    simp only [List.cons_append, replaceOnceL]
    rw [← List.cons_append, if_pos (startsWithL_self_append (a :: as) tail)]
    simp [List.drop_left]

theorem strip_marker_padding (ws : String)
    (h : ∀ c ∈ ws.data, isPySpace c = true) :
    pyStrip (pyReplaceOnce (quickAskMarker ++ ws) quickAskMarker "") = "" := by
  have h1 : (quickAskMarker ++ ws).data = quickAskMarker.data ++ ws.data :=
    String.data_append ..
  simp only [pyReplaceOnce, h1]
  rw [replaceOnceL_self quickAskMarker.data ws.data (by decide)]
  simp only [pyStrip]
  rw [show (String.mk ws.data).data = ws.data from rfl, stripL_all ws.data h]

/-!
The specification claims.
-/

set_option maxRecDepth 100000

/-- C3: Log cap invariant and trim order: whatever the starting contents of
the log, every `_log_notification` append leaves at most 100 records, and
105 sequential insertions into an empty log leave exactly 100 records, the
last 100 inserted, in their original relative insertion order. -/
theorem log_cap_and_trim_order :
    (∀ msg ui ntype now file,
      ((logNotification msg ui ntype now file).1).length ≤ 100) ∧
    (insertSeq 105).length = 100 ∧
    (insertSeq 105).map (fun x => x.message) =
      ((List.range 105).map (fun k => seqMessage (k + 1))).drop 5 :=
  ⟨fun msg ui ntype now file => logNotification_length_le msg ui ntype now file,
   by decide, by decide⟩

/-- C6: Id assignment: every insertion assigns id `current count + 1`, so
starting from an empty log the ids are dense `1, 2, ..., n` for the first
`n ≤ 100` insertions; after the log first exceeds the 100-record cap,
newly assigned ids repeat ids of previously trimmed records — concretely,
the record logged at step 101 carries id 101 and has been trimmed away by
step 201, yet step 202 assigns id 101 again. -/
theorem id_assignment_dense_then_reused :
    (∀ msg ui ntype now file,
      (logNotification msg ui ntype now file).2 = (file.getD []).length + 1) ∧
    (∀ n, n ≤ 100 → (insertSeq n).map (fun x => x.id) = List.range' 1 n) ∧
    ((insertSeq 101).any (fun x => x.message = seqMessage 101 && x.id = 101)
        = true ∧
     (insertSeq 201).all (fun x => x.message ≠ seqMessage 101) = true ∧
     (logNotification (seqMessage 202) insertUI "user_question" "t"
        (some (insertSeq 201))).2 = 101) := by
  refine ⟨fun msg ui ntype now file => by rw [logNotification_eq], ?_, ?_, ?_, ?_⟩
  · intro n
    induction n with
    | zero => intro _; rfl
    | succ n ih =>
      intro h
      have hid := ih (Nat.le_of_succ_le h)
      have hlen : (insertSeq n).length = n := by
        have := congrArg List.length hid
        simpa using this
      show ((logNotification (seqMessage (n + 1)) insertUI "user_question" "t"
          (some (insertSeq n))).1).map (fun x => x.id) = List.range' 1 (n + 1)
      rw [logNotification_small _ _ _ _ _ (by omega)]
      rw [List.map_append, hid, hlen]
      simp [newNotification, List.range'_concat, Nat.add_comm]
  · decide
  · decide
  · decide

/-- Witness for C6 at a concrete input: three insertions into an empty log
yield the dense ids 1, 2, 3. -/
theorem id_assignment_dense_then_reused_witness :
    (insertSeq 3).map (fun x => x.id) = List.range' 1 3 :=
  id_assignment_dense_then_reused.2.1 3 (by decide)

/-- C7: Resolve is an unconditional reset: whatever the callback data
(confirm, cancel, or anything else), whatever the configuration and whether
the dispatch succeeds or fails, `handle_ask_confirmation` ends with
`state.clear()`, so the conversation is idle afterwards. -/
theorem confirmation_always_resets (owner : Option String) (cbData : String)
    (user : TgUser) (now : String) (ctx : FsmContext) (sendFails : Bool)
    (log : List Notification) :
    (handleAskConfirmation owner cbData user now ctx sendFails log).ctx =
      clearedContext := by
  simp only [handleAskConfirmation]
  split
  · split
    · rfl
    · split <;> rfl
  · split <;> rfl

/-- C8: Quick-ask emptiness guard: a message that is the quick-ask keyword
followed only by whitespace strips to empty content, so the handler replies
with the usage hint, transmits nothing, writes nothing to the log, and
leaves the conversation state unchanged. -/
theorem quick_ask_empty_guard (ws : String)
    (h : ∀ c ∈ ws.data, isPySpace c = true)
    (owner : Option String) (user : TgUser) (now : String) (ctx : FsmContext)
    (sendFails : Bool) (log : List Notification) :
    handleQuickAsk owner (quickAskMarker ++ ws) user now ctx sendFails log =
      { ctx := ctx, log := log, replies := [quickUsageMsg],
        ownerMessage := none } := by
  simp [handleQuickAsk, strip_marker_padding ws h]

/-- Witness for C8 at a concrete input: the keyword followed by a space and
a tab triggers the usage hint and nothing else. -/
theorem quick_ask_empty_guard_witness :
    handleQuickAsk none (quickAskMarker ++ " \t") ⟨1, none, none, none⟩ "t"
        clearedContext false [] =
      { ctx := clearedContext, log := [], replies := [quickUsageMsg],
        ownerMessage := none } :=
  quick_ask_empty_guard " \t" (by decide) none ⟨1, none, none, none⟩ "t"
    clearedContext false []

/-- C4: `send_to_owner` first runs the log append and then attempts the
transmission exactly when both the owner identifier and the bot instance are
truthy; it returns the composite result (the three booleans and the error
list), and a log I/O failure surfaces as `logged = false` with a
`"Log error: ..."` entry while the transmission attempt still happens
whenever it is available. -/
theorem sendToOwner_logs_then_sends (owner : Option String) (bot : Bool)
    (msg : String) (ui : UserInfo) (ntype now : String)
    (file : Option (List Notification)) (ioError tgError : Option String) :
    let r := sendToOwner owner bot msg ui ntype now file ioError tgError
    r.2.2 = (pyTruthy owner && bot) ∧
    r.1.email_sent = false ∧
    (ioError = none →
      r.1.logged = true ∧
      r.2.1 = some (logNotification msg ui ntype now file).1) ∧
    (∀ e, ioError = some e →
      r.1.logged = false ∧ ("Log error: " ++ e) ∈ r.1.errors ∧
      r.2.1 = file ∧ r.2.2 = (pyTruthy owner && bot)) := by
  cases ioError <;> cases tgError <;>
    simp only [sendToOwner] <;> split <;>
    simp_all [List.mem_append]

/-- Witness for C4 at a concrete input: with an owner and a bot configured
but the log write failing with "disk full", the result reports
`logged = false`, carries the log error entry, leaves the file alone, and the
transmission is still attempted. -/
theorem sendToOwner_logs_then_sends_witness :
    (sendToOwner (some "1") true "q" insertUI "user_question" "t" (some [])
        (some "disk full") none).1.logged = false ∧
    ("Log error: " ++ "disk full") ∈ (sendToOwner (some "1") true "q" insertUI
        "user_question" "t" (some []) (some "disk full") none).1.errors ∧
    (sendToOwner (some "1") true "q" insertUI "user_question" "t" (some [])
        (some "disk full") none).2.1 = some [] ∧
    (sendToOwner (some "1") true "q" insertUI "user_question" "t" (some [])
        (some "disk full") none).2.2 = (pyTruthy (some "1") && true) := by
  exact (sendToOwner_logs_then_sends (some "1") true "q" insertUI
    "user_question" "t" (some []) (some "disk full") none).2.2.2 "disk full" rfl

/-- C10: a skipped transmission is not an error: when the owner identifier or
the bot instance is unavailable, no transmission is attempted, both
`telegram_sent` and `email_sent` are false, and the error list holds at most
the log-step entry — never a transmission-related one — so a skipped send is
distinguishable from a failed one only through the booleans. -/
theorem skipped_send_is_not_an_error (owner : Option String) (bot : Bool)
    (msg : String) (ui : UserInfo) (ntype now : String)
    (file : Option (List Notification)) (ioError tgError : Option String)
    (h : (pyTruthy owner && bot) = false) :
    let r := sendToOwner owner bot msg ui ntype now file ioError tgError
    r.2.2 = false ∧ r.1.telegram_sent = false ∧ r.1.email_sent = false ∧
    r.1.errors = (match ioError with
      | none => []
      | some e => ["Log error: " ++ e]) := by
  cases ioError <;> simp [sendToOwner, h]

/-- Witness for C10 at a concrete input: owner unset, log write succeeding:
no transmission, no errors at all. -/
theorem skipped_send_is_not_an_error_witness :
    (sendToOwner none true "q" insertUI "user_question" "t" (some []) none
        none).2.2 = false ∧
    (sendToOwner none true "q" insertUI "user_question" "t" (some []) none
        none).1.telegram_sent = false ∧
    (sendToOwner none true "q" insertUI "user_question" "t" (some []) none
        none).1.email_sent = false ∧
    (sendToOwner none true "q" insertUI "user_question" "t" (some []) none
        none).1.errors = [] := by
  exact skipped_send_is_not_an_error none true "q" insertUI "user_question"
    "t" (some []) none none (by decide)

/-- C5: Acknowledge-by-id: with the file present, marking an id that matches
some record updates the first matching record — whatever its current status —
to status `"reviewed"` with a non-empty `reviewed_at` stamp and returns true;
an id matching no record (or a missing file) returns false and leaves the
file unchanged. -/
theorem mark_reviewed_first_match (nid : Nat) (now : String) (hnow : now ≠ "") :
    markNotificationAsReviewed nid now none = (none, false) ∧
    (∀ data : List Notification, (∀ n ∈ data, n.id ≠ nid) →
      markNotificationAsReviewed nid now (some data) = (some data, false)) ∧
    (∀ pre (n : Notification) post, (∀ m ∈ pre, m.id ≠ nid) → n.id = nid →
      markNotificationAsReviewed nid now (some (pre ++ n :: post)) =
        (some (pre ++
          { n with status := "reviewed", reviewed_at := some now } :: post),
         true) ∧
      ({ n with status := "reviewed", reviewed_at := some now } :
          Notification).status = "reviewed" ∧
      ({ n with status := "reviewed", reviewed_at := some now } :
          Notification).reviewed_at.getD "" ≠ "") := by
  refine ⟨rfl, ?_, ?_⟩
  · intro data h
    simp only [markNotificationAsReviewed]
    rw [markFirst_not_found nid now data h]
  · intro pre n post hpre hn
    refine ⟨?_, rfl, by simpa using hnow⟩
    simp only [markNotificationAsReviewed]
    rw [markFirst_found nid now pre n post hpre hn]

/-- Witness for C5 at a concrete input: in a two-record log, marking id 2
updates exactly that record to reviewed with the stamp, and returns true. -/
theorem mark_reviewed_first_match_witness :
    markNotificationAsReviewed 2 "2024-01-01T00:00:00"
        (some [newNotification "a" insertUI "user_question" "t0" 0,
               newNotification "b" insertUI "user_question" "t1" 1]) =
      (some [newNotification "a" insertUI "user_question" "t0" 0,
             { newNotification "b" insertUI "user_question" "t1" 1 with
                 status := "reviewed",
                 reviewed_at := some "2024-01-01T00:00:00" }],
       true) := by
  exact ((mark_reviewed_first_match 2 "2024-01-01T00:00:00" (by decide)).2.2
    [newNotification "a" insertUI "user_question" "t0" 0]
    (newNotification "b" insertUI "user_question" "t1" 1) []
    (by decide) rfl).1

/-- C2 counterexample: the cancel command never consults the owner
identifier (its source reads only the FSM state), so with the owner unset
and an active dialog it still clears the state — a state transition — and
replies with the cancellation text, not with a feature-unavailable message. -/
theorem cancel_ignores_owner_counterexample :
    cmdCancel { state := .waiting_for_question, question := none } [] =
      { ctx := clearedContext, log := [], replies := [actionCancelledMsg],
        ownerMessage := none } ∧
    actionCancelledMsg ≠ unavailableFullMsg ∧
    actionCancelledMsg ≠ unavailableShortMsg ∧
    ({ state := .waiting_for_question, question := none } : FsmContext) ≠
      clearedContext :=
  ⟨rfl, by decide, by decide, by decide⟩

/-- C2 (amended): with the owner identifier unset, the start command and the
quick-ask entry with non-empty content reply with their fixed
feature-unavailable messages, perform no state transition and write nothing
to the log; the cancel command, which never consults the owner identifier,
clears any active state and reports nothing-to-cancel when idle. -/
theorem owner_unset_entry_points (owner : Option String)
    (h : pyTruthy owner = false) (ctx : FsmContext) (log : List Notification)
    (text : String) (user : TgUser) (now : String) (sendFails : Bool) :
    cmdAskOwner owner ctx log =
      { ctx := ctx, log := log, replies := [unavailableFullMsg],
        ownerMessage := none } ∧
    (pyStrip (pyReplaceOnce text quickAskMarker "") ≠ "" →
      handleQuickAsk owner text user now ctx sendFails log =
        { ctx := ctx, log := log, replies := [unavailableShortMsg],
          ownerMessage := none }) ∧
    (ctx.state = .idle →
      cmdCancel ctx log =
        { ctx := ctx, log := log, replies := [nothingToCancelMsg],
          ownerMessage := none }) ∧
    (ctx.state ≠ .idle →
      cmdCancel ctx log =
        { ctx := clearedContext, log := log, replies := [actionCancelledMsg],
          ownerMessage := none }) := by
  refine ⟨by simp [cmdAskOwner, h], ?_, ?_, ?_⟩
  · intro hq
    simp [handleQuickAsk, hq, h]
  · intro hs
    simp [cmdCancel, hs]
  · intro hs
    simp [cmdCancel, hs]

/-- Witness for C2 (amended) at a concrete input: with the owner unset, the
start command replies with the full unavailable message and changes nothing. -/
theorem owner_unset_entry_points_witness :
    cmdAskOwner none clearedContext [] =
      { ctx := clearedContext, log := [], replies := [unavailableFullMsg],
        ownerMessage := none } :=
  (owner_unset_entry_points none (by decide) clearedContext [] "x"
    ⟨1, none, none, none⟩ "t" false).1

/-- C1 counterexample: a successful confirm of a stored question leaves the
log exactly as it was — `handle_ask_confirmation` transmits directly through
the bot and never calls the Notification Log, so no record whose message is
the question text is created anywhere. -/
theorem confirm_path_writes_no_log_record :
    (handleAskConfirmation (some "42") "ask_confirm"
        ⟨7, some "Alice", none, some "alice"⟩ "2024-01-01 00:00:00"
        { state := .confirming_question, question := some "How to collaborate?" }
        false []).log = [] ∧
    (handleAskConfirmation (some "42") "ask_confirm"
        ⟨7, some "Alice", none, some "alice"⟩ "2024-01-01 00:00:00"
        { state := .confirming_question, question := some "How to collaborate?" }
        false []).ownerMessage.isSome = true :=
  ⟨rfl, rfl⟩

/-- The owner message built on the confirm path embeds the stored question
verbatim. -/
theorem formatAskOwnerMessage_contains (user : TgUser) (q ts : String) :
    StrContains (formatAskOwnerMessage user q ts) q := by
  refine ⟨("❓ <b>ВОПРОС ОТ ПОЛЬЗОВАТЕЛЯ</b>\n\n👤 <b>Пользователь:</b>\nID: " ++
      toString user.id ++ "\nИмя: " ++ pyOrElse user.first_name "Не указано" ++
      "\nФамилия: " ++ pyOrElse user.last_name "Не указано" ++
      "\nUsername: @" ++ pyOrElse user.username "Не указан" ++
      "\n\n💬 <b>Сообщение:</b>\n").data,
    ("\n\n⏰ <b>Время:</b> " ++ ts).data, ?_⟩
  simp [formatAskOwnerMessage, String.data_append, List.append_assoc]

/-- C1 (amended): submitting a non-empty, non-cancel text in
`awaiting_question` stores the stripped text and moves to confirmation;
confirming then resets the dialog and transmits an owner message embedding
the text verbatim, but writes no log record at all. A log record whose
message equals the text and whose status is `"pending"` is created — exactly
one per call, appended at the end — only by the Notification Log append
(`_log_notification`, reached through `send_to_owner`), which the confirm
path never invokes. -/
theorem confirm_round_trip (owner : Option String) (T : String)
    (hOwner : pyTruthy owner = true) (hT : pyLower (pyStrip T) ≠ "/cancel")
    (hne : pyStrip T ≠ "") (user : TgUser) (now : String) (ctx : FsmContext)
    (log : List Notification) (ui : UserInfo) (ntype nowLog : String)
    (file : Option (List Notification)) :
    (processAskQuestion T ctx log).ctx =
      { state := .confirming_question, question := some (pyStrip T) } ∧
    (processAskQuestion T ctx log).log = log ∧
    (handleAskConfirmation owner "ask_confirm" user now
        (processAskQuestion T ctx log).ctx false log).ctx = clearedContext ∧
    (handleAskConfirmation owner "ask_confirm" user now
        (processAskQuestion T ctx log).ctx false log).log = log ∧
    (∃ m, (handleAskConfirmation owner "ask_confirm" user now
        (processAskQuestion T ctx log).ctx false log).ownerMessage = some m ∧
      StrContains m (pyStrip T)) ∧
    (logNotification (pyStrip T) ui ntype nowLog file).1 =
      (let data := file.getD []
       let note := newNotification (pyStrip T) ui ntype nowLog data.length
       if data.length + 1 > 100 then
         (data ++ [note]).drop (data.length + 1 - 100)
       else data ++ [note]) ∧
    (newNotification (pyStrip T) ui ntype nowLog
        (file.getD []).length).message = pyStrip T ∧
    (newNotification (pyStrip T) ui ntype nowLog
        (file.getD []).length).status = "pending" := by
  have hp : processAskQuestion T ctx log =
      { ctx := { state := .confirming_question, question := some (pyStrip T) },
        log := log, replies := [confirmPrompt (pyStrip T)],
        ownerMessage := none } := by
    simp [processAskQuestion, hT]
  have hh : handleAskConfirmation owner "ask_confirm" user now
      { state := .confirming_question, question := some (pyStrip T) } false log =
      { ctx := clearedContext, log := log, replies := [confirmSentMsg],
        ownerMessage := some (formatAskOwnerMessage user (pyStrip T) now) } := by
    simp [handleAskConfirmation, hOwner]
  refine ⟨by rw [hp], by rw [hp], by rw [hp, hh], by rw [hp, hh],
    ⟨formatAskOwnerMessage user (pyStrip T) now, by rw [hp, hh],
      formatAskOwnerMessage_contains user (pyStrip T) now⟩,
    ?_, rfl, rfl⟩
  have := logNotification_eq (pyStrip T) ui ntype nowLog file
  exact congrArg Prod.fst this

/-- Witness for C1 (amended) at a concrete input: submitting the text
"How to collaborate?" in the dialog stores it and moves to confirmation. -/
theorem confirm_round_trip_witness :
    (processAskQuestion "How to collaborate?" clearedContext []).ctx =
      { state := .confirming_question,
        question := some (pyStrip "How to collaborate?") } :=
  (confirm_round_trip (some "42") "How to collaborate?" (by decide) (by decide)
    (by decide) ⟨7, some "Alice", none, some "alice"⟩ "t" clearedContext []
    insertUI "user_question" "t2" (some [])).1

/-- C9 counterexample: formatting a message with an empty user-info mapping
renders every identity field with the literal `"N/A"` default of `dict.get`;
neither the English placeholder "not specified" nor the Russian
"Не указано" used by the confirm path's inline formatter appears anywhere in
the output. -/
theorem format_placeholder_is_na :
    ContainsD "N/A".data (formatNotificationMessage "hello"
        ⟨none, none, none, none⟩ "user_question" "2024-01-01 00:00:00").data ∧
    ¬ ContainsD "not specified".data (formatNotificationMessage "hello"
        ⟨none, none, none, none⟩ "user_question" "2024-01-01 00:00:00").data ∧
    ¬ ContainsD "Не указано".data (formatNotificationMessage "hello"
        ⟨none, none, none, none⟩ "user_question" "2024-01-01 00:00:00").data := by
  simp only [← containsSubB_iff]
  decide

/-- C9 (amended): for every message, user-info mapping, notification type
and timestamp string, the formatted owner message embeds the
notification-type header, each sender identity field with every missing
field rendered as the literal placeholder `"N/A"`, the message body
verbatim, and the timestamp (the source stamps the local clock formatted as
`YYYY-MM-DD HH:MM:SS`). -/
theorem format_embeds_fields (msg : String) (ui : UserInfo)
    (ntype ts : String) :
    StrContains (formatNotificationMessage msg ui ntype ts)
      (notificationHeader ntype) ∧
    StrContains (formatNotificationMessage msg ui ntype ts)
      ("ID: " ++ ui.id.getD "N/A") ∧
    StrContains (formatNotificationMessage msg ui ntype ts)
      ("Username: @" ++ ui.username.getD "N/A") ∧
    StrContains (formatNotificationMessage msg ui ntype ts)
      ("Имя: " ++ ui.first_name.getD "N/A") ∧
    StrContains (formatNotificationMessage msg ui ntype ts)
      ("Фамилия: " ++ ui.last_name.getD "N/A") ∧
    StrContains (formatNotificationMessage msg ui ntype ts) msg ∧
    StrContains (formatNotificationMessage msg ui ntype ts)
      ("⏰ <b>Время:</b> " ++ ts) := by
  refine ⟨⟨"<b>".data,
      ("</b>\n\n👤 <b>Пользователь:</b>\nID: " ++ ui.id.getD "N/A" ++
        "\nUsername: @" ++ ui.username.getD "N/A" ++
        "\nИмя: " ++ ui.first_name.getD "N/A" ++
        "\nФамилия: " ++ ui.last_name.getD "N/A" ++
        "\n\n💬 <b>Сообщение:</b>\n" ++ msg ++
        "\n\n⏰ <b>Время:</b> " ++ ts ++ "\n").data, ?_⟩,
    ⟨("<b>" ++ notificationHeader ntype ++
        "</b>\n\n👤 <b>Пользователь:</b>\n").data,
      ("\nUsername: @" ++ ui.username.getD "N/A" ++
        "\nИмя: " ++ ui.first_name.getD "N/A" ++
        "\nФамилия: " ++ ui.last_name.getD "N/A" ++
        "\n\n💬 <b>Сообщение:</b>\n" ++ msg ++
        "\n\n⏰ <b>Время:</b> " ++ ts ++ "\n").data, ?_⟩,
    ⟨("<b>" ++ notificationHeader ntype ++
        "</b>\n\n👤 <b>Пользователь:</b>\nID: " ++ ui.id.getD "N/A" ++
        "\n").data,
      ("\nИмя: " ++ ui.first_name.getD "N/A" ++
        "\nФамилия: " ++ ui.last_name.getD "N/A" ++
        "\n\n💬 <b>Сообщение:</b>\n" ++ msg ++
        "\n\n⏰ <b>Время:</b> " ++ ts ++ "\n").data, ?_⟩,
    ⟨("<b>" ++ notificationHeader ntype ++
        "</b>\n\n👤 <b>Пользователь:</b>\nID: " ++ ui.id.getD "N/A" ++
        "\nUsername: @" ++ ui.username.getD "N/A" ++ "\n").data,
      ("\nФамилия: " ++ ui.last_name.getD "N/A" ++
        "\n\n💬 <b>Сообщение:</b>\n" ++ msg ++
        "\n\n⏰ <b>Время:</b> " ++ ts ++ "\n").data, ?_⟩,
    ⟨("<b>" ++ notificationHeader ntype ++
        "</b>\n\n👤 <b>Пользователь:</b>\nID: " ++ ui.id.getD "N/A" ++
        "\nUsername: @" ++ ui.username.getD "N/A" ++
        "\nИмя: " ++ ui.first_name.getD "N/A" ++ "\n").data,
      ("\n\n💬 <b>Сообщение:</b>\n" ++ msg ++
        "\n\n⏰ <b>Время:</b> " ++ ts ++ "\n").data, ?_⟩,
    ⟨("<b>" ++ notificationHeader ntype ++
        "</b>\n\n👤 <b>Пользователь:</b>\nID: " ++ ui.id.getD "N/A" ++
        "\nUsername: @" ++ ui.username.getD "N/A" ++
        "\nИмя: " ++ ui.first_name.getD "N/A" ++
        "\nФамилия: " ++ ui.last_name.getD "N/A" ++
        "\n\n💬 <b>Сообщение:</b>\n").data,
      ("\n\n⏰ <b>Время:</b> " ++ ts ++ "\n").data, ?_⟩,
    ⟨("<b>" ++ notificationHeader ntype ++
        "</b>\n\n👤 <b>Пользователь:</b>\nID: " ++ ui.id.getD "N/A" ++
        "\nUsername: @" ++ ui.username.getD "N/A" ++
        "\nИмя: " ++ ui.first_name.getD "N/A" ++
        "\nФамилия: " ++ ui.last_name.getD "N/A" ++
        "\n\n💬 <b>Сообщение:</b>\n" ++ msg ++ "\n\n").data,
      "\n".data, ?_⟩⟩ <;>
    simp [formatNotificationMessage, String.data_append, List.append_assoc]

end TgAiBot
